import Mathlib

/-!
Shallow embedding of the FastAPI example-snippet repository
(skills/dev-fastapi-app/assets). Each Python snippet that the claims
refer to is translated into an executable Lean definition; external
library behaviour (JWT decoding, the database, the dependency-injection
cache, the transaction context) is represented by explicit environments
and oracles, following the libraries' documented contracts.
-/

/-- HTTP error value carried by a raised fastapi HTTPException:
a status code and a detail message. -/
structure HTTPError where
  status_code : Nat
  detail : String
deriving Repr, DecidableEq

/-- Token payload extracted by parse_jwt_data: the user id from the JWT. -/
structure TokenData where
  user_id : Nat
deriving Repr, DecidableEq

/-- Permission enum from deps/permission-factory.py. -/
inductive Permission where
  | READ_POSTS
  | WRITE_POSTS
  | DELETE_POSTS
deriving Repr, DecidableEq

/-- String value of a Permission (the str-enum value). -/
def Permission.value : Permission → String
  | .READ_POSTS => "read:posts"
  | .WRITE_POSTS => "write:posts"
  | .DELETE_POSTS => "delete:posts"

/-- User record as used by the auth-chain snippets (a dict in Python). -/
structure User where
  id : Nat
  is_active : Bool
  is_creator : Bool
  permissions : List Permission
deriving Repr, DecidableEq

/-- Post record as used by the ownership snippets (a dict in Python). -/
structure Post where
  id : Nat
  creator_id : Nat
deriving Repr, DecidableEq

/-- Environment a request executes in: the outcome of jwt.decode on the
bearer token (none models a JWTError, some i the decoded payload id),
and the lookup services users_service.get_by_id / posts_service.get_by_id. -/
structure AuthEnv where
  jwtPayloadId : Option Nat
  userById : Nat → Option User
  postById : Nat → Option Post

/-- Translation of parse_jwt_data from deps/auth-chain.py: on JWTError
raise 401 "Invalid credentials", otherwise return the payload id. -/
def parse_jwt_data (env : AuthEnv) : Except HTTPError TokenData :=
  match env.jwtPayloadId with
  | none => .error ⟨401, "Invalid credentials"⟩
  | some i => .ok ⟨i⟩

/-- Translation of get_current_user from deps/auth-chain.py: look the
user up by the token user id, raise 401 "User not found" when absent. -/
def get_current_user (env : AuthEnv) : Except HTTPError User :=
  (parse_jwt_data env).bind fun token_data =>
    match env.userById token_data.user_id with
    | none => .error ⟨401, "User not found"⟩
    | some user => .ok user

/-- Translation of get_active_user from deps/auth-chain.py: raise 403
"Inactive user" when the user is not active. -/
def get_active_user (env : AuthEnv) : Except HTTPError User :=
  (get_current_user env).bind fun user =>
    if user.is_active = false then .error ⟨403, "Inactive user"⟩
    else .ok user

/-- Translation of valid_post_id from deps/resource-ownership.py: raise
PostNotFound (status 404) when the post is absent. -/
def valid_post_id (env : AuthEnv) (post_id : Nat) : Except HTTPError Post :=
  match env.postById post_id with
  | none => .error ⟨404, "Post not found"⟩
  | some post => .ok post

/-- Translation of valid_owned_post from deps/resource-ownership.py:
raise 403 when the requester is not the creator of the post. -/
def valid_owned_post (env : AuthEnv) (post_id : Nat) : Except HTTPError Post :=
  (valid_post_id env post_id).bind fun post =>
  (parse_jwt_data env).bind fun token_data =>
    if post.creator_id ≠ token_data.user_id then
      .error ⟨403, "User does not own this post"⟩
    else .ok post

/-- Translation of require_permission from deps/permission-factory.py:
the factory returns a dependency that raises 403 when the required
permission is not in the user permission list. -/
def require_permission (required_permission : Permission) (env : AuthEnv) :
    Except HTTPError User :=
  (get_current_user env).bind fun user =>
    if required_permission ∉ user.permissions then
      .error ⟨403, "Missing required permission: " ++ required_permission.value⟩
    else .ok user

/-- Result r is a raised HTTPException with the given status code. -/
def raisesStatus {α : Type} (r : Except HTTPError α) (c : Nat) : Prop :=
  ∃ e, r = Except.error e ∧ e.status_code = c

/-- Pagination parameters from deps/class-pagination.py. -/
structure PaginationParams where
  page : Int
  page_size : Int
deriving Repr, DecidableEq

/-- Translation of the validate_page_size validator: raise ValueError
when v exceeds 100, otherwise return v. -/
def validate_page_size (v : Int) : Except String Int :=
  if v > 100 then .error "page_size cannot exceed 100" else .ok v

/-- Pydantic construction of PaginationParams: the Field constraints
(page ge 1; page_size ge 1, le 100) are enforced first, then the
validate_page_size validator runs on page_size (pydantic v1 runs plain
validators after the field constraints). -/
def mkPaginationParams (page page_size : Int) :
    Except String PaginationParams :=
  if page < 1 then
    .error "page: ensure this value is greater than or equal to 1"
  else if page_size < 1 then
    .error "page_size: ensure this value is greater than or equal to 1"
  else if page_size > 100 then
    .error "page_size: ensure this value is less than or equal to 100"
  else
    (validate_page_size page_size).map fun v =>
      { page := page, page_size := v }

/-- Skip property of PaginationParams. -/
def PaginationParams.skip (p : PaginationParams) : Int :=
  (p.page - 1) * p.page_size

/-- Limit property of PaginationParams. -/
def PaginationParams.limit (p : PaginationParams) : Int :=
  p.page_size

/-- Python range(n) as a list of integers (empty when n is not positive). -/
def pythonRange (n : Int) : List Int :=
  if n ≤ 0 then [] else (List.range n.toNat).map Int.ofNat

/-- Translation of heavy_computation from async/cpu-intensive-process-pool.py:
the sum of x squared for x in range(n). -/
def heavy_computation (n : Int) : Int :=
  ((pythonRange n).map (fun x => x ^ 2)).sum

/-! Database model for the transaction snippet (database/transaction.py)
and the manager snippet (structure/manager.py). -/

/-- Request body for creating a post (schemas.PostCreate). -/
structure PostCreate where
  title : String
  content : String
  published : Bool
deriving Repr, DecidableEq

/-- Row of the posts table. -/
structure PostRow where
  id : Nat
  title : String
  content : String
  published : Bool
  creator_id : Nat
deriving Repr, DecidableEq

/-- Row of the tags table. -/
structure TagRow where
  post_id : Nat
  name : String
deriving Repr, DecidableEq

/-- Database state: the posts table, the tags table, and the next
auto-generated post id. -/
structure DB where
  posts : List PostRow
  tags : List TagRow
  nextId : Nat
deriving Repr, DecidableEq

/-- Database-level failure: statement number idx of the current call
failed, or a fetch found no row. -/
inductive DbError where
  | executeFailed (idx : Nat)
  | notFound
deriving Repr, DecidableEq

/-- Tag-insertion loop of create_post_with_tags: statements are numbered
by idx; the oracle fails decides which database.execute calls fail. -/
def insertTags (fails : Nat → Bool) (post_id : Nat) (tagNames : List String)
    (idx : Nat) (db : DB) : Except DbError DB :=
  match tagNames with
  | [] => .ok db
  | t :: rest =>
    if fails idx then .error (.executeFailed idx)
    else insertTags fails post_id rest (idx + 1)
      { db with tags := db.tags ++ [⟨post_id, t⟩] }

/-- Body of the transaction block in create_post_with_tags: insert the
post (statement 0), insert each tag (statements 1..), then fetch the
created post (statement tagNames.length + 1). -/
def transactionBody (fails : Nat → Bool) (post_data : PostCreate)
    (tagNames : List String) (creator_id : Nat) (db : DB) :
    Except DbError (PostRow × DB) :=
  if fails 0 then .error (.executeFailed 0)
  else
    let pid := db.nextId
    let row : PostRow :=
      ⟨pid, post_data.title, post_data.content, post_data.published, creator_id⟩
    let db1 : DB := { posts := db.posts ++ [row], tags := db.tags, nextId := db.nextId + 1 }
    match insertTags fails pid tagNames 1 db1 with
    | .error e => .error e
    | .ok db2 =>
      if fails (tagNames.length + 1) then .error (.executeFailed (tagNames.length + 1))
      else
        match db2.posts.find? (fun r => r.id = pid) with
        | none => .error .notFound
        | some r => .ok (r, db2)

/-- Translation of create_post_with_tags from database/transaction.py.
Per the documented contract of the database driver transaction context,
a failure anywhere inside the block rolls the database back to the
state it had on entry; on success the block commits. -/
def create_post_with_tags (fails : Nat → Bool) (post_data : PostCreate)
    (tagNames : List String) (creator_id : Nat) (db : DB) :
    Except DbError PostRow × DB :=
  match transactionBody fails post_data tagNames creator_id db with
  | .error e => (.error e, db)
  | .ok (r, db2) => (.ok r, db2)

/-! Resource cleanup model (deps/yield-cleanup.py). FastAPI runs the
code after the yield of a generator dependency after the response is
produced, in a finally block, so it runs on both outcomes. -/

/-- Cleanup flags recording which release actions have run. -/
structure CleanupState where
  dbClosed : Bool
  redisClosed : Bool
  redisWaitClosed : Bool
deriving Repr, DecidableEq

/-- Translation of get_db from deps/yield-cleanup.py run against a
handler outcome: acquire the session, run the handler (which returns
normally or raises), and close the session in the finally block on
either path. The returned flags record the cleanup that ran. -/
def run_get_db {ε ρ : Type} (handlerOutcome : Except ε ρ) (s : CleanupState) :
    Except ε ρ × CleanupState :=
  match handlerOutcome with
  | .ok r => (.ok r, { s with dbClosed := true })
  | .error e => (.error e, { s with dbClosed := true })

/-- Translation of get_redis from deps/yield-cleanup.py run against a
handler outcome: acquire the pool, run the body, and in the finally
block call close followed by wait_closed on either path. -/
def run_get_redis {ε ρ : Type} (handlerOutcome : Except ε ρ) (s : CleanupState) :
    Except ε ρ × CleanupState :=
  match handlerOutcome with
  | .ok r => (.ok r, { s with redisClosed := true, redisWaitClosed := true })
  | .error e => (.error e, { s with redisClosed := true, redisWaitClosed := true })

/-! Python name-resolution model for structure/exceptions.py. The body
of InvalidPostStatus.__init__ mentions the name status, which resolves
to the innermost binding: the str parameter, not the fastapi.status
module it shadows. -/

/-- Python values relevant to the exceptions snippet: a str, or a module
mapping attribute names to integer constants. -/
inductive PyValue where
  | str (s : String)
  | module (attrs : String → Option Nat)

/-- Python runtime error raised during attribute or name resolution. -/
inductive PyError where
  | attributeError (typeName attrName : String)
  | nameError (name : String)
deriving Repr, DecidableEq

/-- Attribute lookup on a PyValue: modules expose their constants; a
str object has no HTTP status-code attributes, so the lookup raises
AttributeError. -/
def getattrNat (v : PyValue) (attr : String) : Except PyError Nat :=
  match v with
  | .module attrs =>
    match attrs attr with
    | some n => .ok n
    | none => .error (.attributeError "module" attr)
  | .str _ => .error (.attributeError "str" attr)

/-- Name resolution in a Python function body: the local scope shadows
the module-global scope. -/
def lookupName (locals globals : List (String × PyValue)) (n : String) :
    Except PyError PyValue :=
  match locals.find? (fun p => p.1 = n) with
  | some p => .ok p.2
  | none =>
    match globals.find? (fun p => p.1 = n) with
    | some p => .ok p.2
    | none => .error (.nameError n)

/-- Attribute table of the fastapi status module. -/
def statusModule : String → Option Nat := fun a =>
  if a = "HTTP_400_BAD_REQUEST" then some 400
  else if a = "HTTP_401_UNAUTHORIZED" then some 401
  else if a = "HTTP_403_FORBIDDEN" then some 403
  else if a = "HTTP_404_NOT_FOUND" then some 404
  else none

/-- Module-global scope of structure/exceptions.py: the name status is
bound to the imported fastapi status module. -/
def exceptionsGlobals : List (String × PyValue) :=
  [("status", PyValue.module statusModule)]

/-- Translation of PostNotFound.__init__: no local named status, so the
name resolves to the fastapi status module. -/
def PostNotFound_init : Except PyError HTTPError :=
  (lookupName [] exceptionsGlobals "status").bind fun v =>
  (getattrNat v "HTTP_404_NOT_FOUND").map fun c =>
    { status_code := c, detail := "Post not found" }

/-- Translation of UserNotOwner.__init__. -/
def UserNotOwner_init : Except PyError HTTPError :=
  (lookupName [] exceptionsGlobals "status").bind fun v =>
  (getattrNat v "HTTP_403_FORBIDDEN").map fun c =>
    { status_code := c, detail := "User does not own this post" }

/-- Translation of InvalidPostStatus.__init__(self, status: str): the
parameter named status is in the local scope, so the body expression
status.HTTP_400_BAD_REQUEST is an attribute lookup on the str argument. -/
def InvalidPostStatus_init (stat : String) : Except PyError HTTPError :=
  (lookupName [("status", PyValue.str stat)] exceptionsGlobals "status").bind fun v =>
  (getattrNat v "HTTP_400_BAD_REQUEST").map fun c =>
    { status_code := c, detail := "Invalid post status: " ++ stat }

/-! Schema model for the Alembic migration snippets
(database/migration-initial.py). -/

/-- Column definition as passed to op.create_table. -/
structure ColumnDef where
  name : String
  sqlType : String
  nullable : Bool
  primary_key : Bool
  server_default : Option String
deriving Repr, DecidableEq

/-- Index definition as created by op.create_index. -/
structure IndexDef where
  name : String
  columns : List String
  unique : Bool
deriving Repr, DecidableEq

/-- Table definition: its columns and the indexes attached to it. -/
structure TableDef where
  columns : List ColumnDef
  indexes : List IndexDef
deriving Repr, DecidableEq

/-- Database schema: a map from table name to its definition. -/
def Schema := String → Option TableDef

/-- Migration-operation failure. -/
inductive MigError where
  | tableExists (n : String)
  | noTable (n : String)
  | indexExists (n : String)
  | noIndex (n : String)
deriving Repr, DecidableEq

/-- Semantics of op.create_table: fails when the table exists, else adds
a table with the given columns and no indexes. -/
def op_create_table (name : String) (cols : List ColumnDef) (s : Schema) :
    Except MigError Schema :=
  match s name with
  | some _ => .error (.tableExists name)
  | none => .ok (fun n => if n = name then some ⟨cols, []⟩ else s n)

/-- Semantics of op.create_index: fails when the table is missing or an
index of that name already exists on it, else appends the index. -/
def op_create_index (iname tname : String) (cols : List String) (uniq : Bool)
    (s : Schema) : Except MigError Schema :=
  match s tname with
  | none => .error (.noTable tname)
  | some td =>
    if td.indexes.any (fun i => i.name = iname) then .error (.indexExists iname)
    else .ok (fun n =>
      if n = tname then some { td with indexes := td.indexes ++ [⟨iname, cols, uniq⟩] }
      else s n)

/-- Semantics of op.drop_index: fails when the table or the index is
missing, else removes the index from the table. -/
def op_drop_index (iname tname : String) (s : Schema) : Except MigError Schema :=
  match s tname with
  | none => .error (.noTable tname)
  | some td =>
    if td.indexes.any (fun i => i.name = iname) then
      .ok (fun n =>
        if n = tname then some { td with indexes := td.indexes.filter (fun i => i.name ≠ iname) }
        else s n)
    else .error (.noIndex iname)

/-- Semantics of op.drop_table: fails when the table is missing, else
removes the table (and with it its indexes). -/
def op_drop_table (name : String) (s : Schema) : Except MigError Schema :=
  match s name with
  | none => .error (.noTable name)
  | some _ => .ok (fun n => if n = name then none else s n)

/-- Columns of the user table created by the initial migration. -/
def userColumns : List ColumnDef :=
  [⟨"id", "UUID", false, true, none⟩,
   ⟨"email", "String(255)", false, false, none⟩,
   ⟨"username", "String(100)", false, false, none⟩,
   ⟨"created_at", "DateTime(timezone=True)", true, false, some "now()"⟩]

/-- Translation of upgrade() from database/migration-initial.py: create
the user table, then its two unique indexes. -/
def migration_initial_upgrade (s : Schema) : Except MigError Schema :=
  (op_create_table "user" userColumns s).bind fun s1 =>
  (op_create_index "user_email_idx" "user" ["email"] true s1).bind fun s2 =>
  op_create_index "user_username_idx" "user" ["username"] true s2

/-- Translation of downgrade() from database/migration-initial.py: drop
the two indexes, then the table. -/
def migration_initial_downgrade (s : Schema) : Except MigError Schema :=
  (op_drop_index "user_username_idx" "user" s).bind fun s1 =>
  (op_drop_index "user_email_idx" "user" s1).bind fun s2 =>
  op_drop_table "user" s2

/-! Dependency-resolution model for get_user_post
(deps/resource-ownership.py). FastAPI resolves the dependencies of
get_user_post in signature order (valid_owned_post, then
valid_active_creator) and caches each sub-dependency result within the
request, so parse_jwt_data runs at most once; the naive resolution below
re-evaluates it for each consumer. Resolution stops at the first raised
exception. Each resolver is paired with the number of parse_jwt_data
evaluations it performed. -/

/-- Translation of valid_active_creator from deps/resource-ownership.py,
given an already-resolved token_data: look the user up (a missing user
makes the Python subscript raise, modelled as a 500) and require
is_active and is_creator. -/
def valid_active_creator_body (env : AuthEnv) (token_data : TokenData) :
    Except HTTPError User :=
  match env.userById token_data.user_id with
  | none => .error ⟨500, "TypeError: NoneType is not subscriptable"⟩
  | some user =>
    if user.is_active = false then .error ⟨403, "User is banned"⟩
    else if user.is_creator = false then .error ⟨403, "User is not a creator"⟩
    else .ok user

/-- Body of valid_owned_post given already-resolved sub-dependency
values (the post and the token data). -/
def valid_owned_post_body (post : Post) (token_data : TokenData) :
    Except HTTPError Post :=
  if post.creator_id ≠ token_data.user_id then
    .error ⟨403, "User does not own this post"⟩
  else .ok post

/-- Request-scoped cache for the shared sub-dependency parse_jwt_data,
with a counter of how many times it was actually evaluated. -/
structure DepCache where
  jwtResult : Option (Except HTTPError TokenData)
  parseCalls : Nat
deriving Repr

/-- Cached resolution of parse_jwt_data: reuse the memoized result when
present, otherwise evaluate it once and memoize. -/
def resolve_jwt_cached (env : AuthEnv) (c : DepCache) :
    Except HTTPError TokenData × DepCache :=
  match c.jwtResult with
  | some r => (r, c)
  | none =>
    let r := parse_jwt_data env
    (r, { jwtResult := some r, parseCalls := c.parseCalls + 1 })

/-- Cached resolution of get_user_post: resolve valid_owned_post (its
sub-dependencies valid_post_id then parse_jwt_data, in order), then
valid_active_creator, sharing the cache; stop at the first exception.
Returns the (post, user) pair on success and the number of
parse_jwt_data evaluations. -/
def get_user_post_cached (env : AuthEnv) (post_id : Nat) :
    Except HTTPError (Post × User) × Nat :=
  match valid_post_id env post_id with
  | .error e => (.error e, 0)
  | .ok post =>
    let c0 : DepCache := ⟨none, 0⟩
    match resolve_jwt_cached env c0 with
    | (.error e, c1) => (.error e, c1.parseCalls)
    | (.ok td, c1) =>
      match valid_owned_post_body post td with
      | .error e => (.error e, c1.parseCalls)
      | .ok post2 =>
        match resolve_jwt_cached env c1 with
        | (.error e, c2) => (.error e, c2.parseCalls)
        | (.ok td2, c2) =>
          match valid_active_creator_body env td2 with
          | .error e => (.error e, c2.parseCalls)
          | .ok user => (.ok (post2, user), c2.parseCalls)

/-- Naive resolution of get_user_post: evaluate parse_jwt_data
separately for each consumer, counting each evaluation. -/
def get_user_post_naive (env : AuthEnv) (post_id : Nat) :
    Except HTTPError (Post × User) × Nat :=
  match valid_post_id env post_id with
  | .error e => (.error e, 0)
  | .ok post =>
    match parse_jwt_data env with
    | .error e => (.error e, 1)
    | .ok td =>
      match valid_owned_post_body post td with
      | .error e => (.error e, 1)
      | .ok post2 =>
        match parse_jwt_data env with
        | .error e => (.error e, 2)
        | .ok td2 =>
          match valid_active_creator_body env td2 with
          | .error e => (.error e, 2)
          | .ok user => (.ok (post2, user), 2)

/-! Partial-update model for update_post (structure/manager.py) over the
post table declared in structure/models.py. -/

/-- Request body for updating a post (schemas.PostUpdate): a field is
some v exactly when it was explicitly set in the request, matching
dict(exclude_unset=True). PostUpdate declares no updated_at field. -/
structure PostUpdate where
  title : Option String
  content : Option String
  published : Option Bool
deriving Repr, DecidableEq

/-- Row of the post table as declared in structure/models.py: id, title,
content, published, creator_id, created_at (server_default=func.now())
and updated_at (nullable, onupdate=func.now()). Timestamps are modelled
as integers on the database clock, absent values as none. -/
structure PostModelRow where
  id : Nat
  title : String
  content : String
  published : Bool
  creator_id : Nat
  created_at : Option Nat
  updated_at : Option Nat
deriving Repr, DecidableEq

/-- Effect of the UPDATE statement values(**values) of update_post on
one matching row: each explicitly-set field is overwritten, and the
updated_at column is set to the current database time, because the
column's onupdate=func.now() default is added to the SET clause of
every UPDATE that omits the column (PostUpdate never carries it). -/
def applyPostUpdate (u : PostUpdate) (now : Nat) (r : PostModelRow) : PostModelRow :=
  { r with
    title := u.title.getD r.title,
    content := u.content.getD r.content,
    published := u.published.getD r.published,
    updated_at := some now }

/-- Translation of update_post from structure/manager.py: the UPDATE
statement with WHERE id = post_id rewrites exactly the rows whose id
matches, applying the explicitly-set fields and the updated_at onupdate
default; now is the database clock at execution. -/
def update_post (rows : List PostModelRow) (post_id : Nat) (post_data : PostUpdate)
    (now : Nat) : List PostModelRow :=
  rows.map (fun r => if r.id = post_id then applyPostUpdate post_data now r else r)

/-! Theorems. -/

/-- Six times the sum of the squares below m, in closed form. -/
theorem six_mul_sq_sum_range (m : Nat) :
    6 * (((List.range m).map Int.ofNat).map (fun x => x ^ 2)).sum
      = (m : Int) * ((m : Int) - 1) * (2 * (m : Int) - 1) := by
  induction m with
  | zero => simp
  | succ k ih =>
    rw [List.range_succ, List.map_append, List.map_append, List.sum_append]
    simp only [List.map_cons, List.map_nil, List.sum_cons, List.sum_nil,
      Int.ofNat_eq_natCast]
    push_cast
    linear_combination ih

/-- Range of a nonnegative integer agrees with the Nat range. -/
theorem pythonRange_of_nonneg (n : Int) (h : 0 ≤ n) :
    pythonRange n = (List.range n.toNat).map Int.ofNat := by
  rw [pythonRange]
  by_cases hn : n ≤ 0
  · have h0 : n = 0 := le_antisymm hn h
    subst h0
    simp
  · simp [hn]

/-- C10: for every n at least 0, heavy_computation n equals the closed
form n * (n - 1) * (2n - 1) / 6, for every n at most 0 it returns 0, and
the result is always nonnegative. -/
theorem C10_heavy_computation_closed_form (n : Int) :
    (0 ≤ n → heavy_computation n = n * (n - 1) * (2 * n - 1) / 6) ∧
    (n ≤ 0 → heavy_computation n = 0) ∧
    0 ≤ heavy_computation n := by
  refine ⟨?_, ?_, ?_⟩
  · intro h
    have hn : ((n.toNat : Int)) = n := Int.toNat_of_nonneg h
    rw [heavy_computation, pythonRange_of_nonneg n h]
    have h6 := six_mul_sq_sum_range n.toNat
    rw [hn] at h6
    rw [← h6, Int.mul_ediv_cancel_left _ (by norm_num)]
  · intro h
    rw [heavy_computation, pythonRange]
    simp [h]
  · rw [heavy_computation]
    apply List.sum_nonneg
    intro x hx
    simp only [List.mem_map] at hx
    obtain ⟨y, _, rfl⟩ := hx
    positivity

/-- Witness for C10 at n = 4: the closed form gives 4 * 3 * 7 / 6 = 14. -/
theorem C10_heavy_computation_closed_form_witness :
    heavy_computation 4 = 4 * (4 - 1) * (2 * 4 - 1) / 6 :=
  (C10_heavy_computation_closed_form 4).1 (by decide)

/-- C9: every value that passed the Field constraint le 100 makes the
explicit ValueError branch of validate_page_size unreachable, so the
validator returns its input. -/
theorem C9_validate_page_size_branch_unreachable (v : Int) (h : v ≤ 100) :
    validate_page_size v = Except.ok v := by
  rw [validate_page_size, if_neg (by omega)]

/-- Witness for C9 at v = 50. -/
theorem C9_validate_page_size_branch_unreachable_witness :
    validate_page_size 50 = Except.ok 50 :=
  C9_validate_page_size_branch_unreachable 50 (by decide)

/-- C4: a validated PaginationParams has skip = (page - 1) * page_size
and limit = page_size with 0 ≤ skip and 1 ≤ limit ≤ 100, and an input
with page below 1 or page_size above 100 is rejected by validation. -/
theorem C4_pagination_params (page page_size : Int) :
    (∀ pp, mkPaginationParams page page_size = Except.ok pp →
      pp.page = page ∧ pp.page_size = page_size ∧
      pp.skip = (pp.page - 1) * pp.page_size ∧
      pp.limit = pp.page_size ∧
      0 ≤ pp.skip ∧ 1 ≤ pp.limit ∧ pp.limit ≤ 100) ∧
    ((page < 1 ∨ 100 < page_size) →
      ∃ msg, mkPaginationParams page page_size = Except.error msg) := by
  constructor
  · intro pp hok
    by_cases h1 : page < 1
    · rw [mkPaginationParams, if_pos h1] at hok
      exact absurd hok (by simp)
    · by_cases h2 : page_size < 1
      · rw [mkPaginationParams, if_neg h1, if_pos h2] at hok
        exact absurd hok (by simp)
      · by_cases h3 : page_size > 100
        · rw [mkPaginationParams, if_neg h1, if_neg h2, if_pos h3] at hok
          exact absurd hok (by simp)
        · rw [mkPaginationParams, if_neg h1, if_neg h2, if_neg h3,
            validate_page_size, if_neg h3] at hok
          simp only [Except.map, Except.ok.injEq] at hok
          subst hok
          refine ⟨rfl, rfl, rfl, rfl, ?_, ?_, ?_⟩
          · show (0 : Int) ≤ (page - 1) * page_size
            exact mul_nonneg (by omega) (by omega)
          · show (1 : Int) ≤ page_size
            omega
          · show page_size ≤ (100 : Int)
            omega
  · intro hbad
    by_cases h1 : page < 1
    · exact ⟨_, by rw [mkPaginationParams, if_pos h1]⟩
    · have h3 : page_size > 100 := by omega
      have h2 : ¬ page_size < 1 := by omega
      exact ⟨_, by rw [mkPaginationParams, if_neg h1, if_neg h2, if_pos h3]⟩

/-- Witness for C4: page 3, page_size 20 validates with skip 40; and
page_size 101 is rejected. -/
theorem C4_pagination_params_witness :
    (PaginationParams.skip ⟨3, 20⟩ = 40 ∧ PaginationParams.limit ⟨3, 20⟩ = 20) ∧
    ∃ msg, mkPaginationParams 1 101 = Except.error msg :=
  ⟨by
    have h := (C4_pagination_params 3 20).1 ⟨3, 20⟩ rfl
    exact ⟨h.2.2.1.trans (by decide), h.2.2.2.1.trans (by decide)⟩,
   (C4_pagination_params 1 101).2 (Or.inr (by decide))⟩

/-- C3: the resource acquired by the get_db dependency is closed on both
the normal and the exceptional path, and likewise the redis connection
acquired by get_redis is closed and awaited on both paths; the handler
outcome itself passes through unchanged. -/
theorem C3_yield_cleanup_always_closes {ε ρ : Type}
    (handlerOutcome : Except ε ρ) (s : CleanupState) :
    ((run_get_db handlerOutcome s).2.dbClosed = true ∧
     (run_get_db handlerOutcome s).1 = handlerOutcome) ∧
    ((run_get_redis handlerOutcome s).2.redisClosed = true ∧
     (run_get_redis handlerOutcome s).2.redisWaitClosed = true ∧
     (run_get_redis handlerOutcome s).1 = handlerOutcome) := by
  cases handlerOutcome <;> simp [run_get_db, run_get_redis]

/-- C5: PostNotFound carries 404 and UserNotOwner carries 403 as the
spec's mapping requires, and valid_post_id raises PostNotFound exactly
on a missing post; but constructing InvalidPostStatus with a status
string raises AttributeError instead of producing a 400 error, because
the parameter named status shadows the fastapi status module. -/
theorem C5_exceptions_status_mapping :
    PostNotFound_init = Except.ok ⟨404, "Post not found"⟩ ∧
    UserNotOwner_init = Except.ok ⟨403, "User does not own this post"⟩ ∧
    InvalidPostStatus_init "draft" =
      Except.error (PyError.attributeError "str" "HTTP_400_BAD_REQUEST") ∧
    valid_post_id ⟨none, fun _ => none, fun _ => none⟩ 7 =
      Except.error ⟨404, "Post not found"⟩ ∧
    valid_post_id ⟨none, fun _ => none, fun _ => some ⟨7, 1⟩⟩ 7 =
      Except.ok ⟨7, 1⟩ :=
  ⟨rfl, rfl, rfl, rfl, rfl⟩

/-- C1: the authentication and authorization chain raises 401 when JWT
decoding fails, 401 when the decoded user does not exist, 403 when the
user is inactive, 403 when the requester does not own the post, and 403
when the required permission is missing; in every non-error case each
dependency returns its user or post value. -/
theorem C1_auth_chain_statuses (env : AuthEnv) (post_id : Nat) (perm : Permission) :
    (env.jwtPayloadId = none → raisesStatus (parse_jwt_data env) 401) ∧
    (∀ i, env.jwtPayloadId = some i → parse_jwt_data env = Except.ok ⟨i⟩) ∧
    (∀ i, env.jwtPayloadId = some i → env.userById i = none →
      raisesStatus (get_current_user env) 401) ∧
    (∀ i u, env.jwtPayloadId = some i → env.userById i = some u →
      get_current_user env = Except.ok u) ∧
    (∀ i u, env.jwtPayloadId = some i → env.userById i = some u →
      u.is_active = false → raisesStatus (get_active_user env) 403) ∧
    (∀ i u, env.jwtPayloadId = some i → env.userById i = some u →
      u.is_active = true → get_active_user env = Except.ok u) ∧
    (∀ i p, env.jwtPayloadId = some i → env.postById post_id = some p →
      p.creator_id ≠ i → raisesStatus (valid_owned_post env post_id) 403) ∧
    (∀ i p, env.jwtPayloadId = some i → env.postById post_id = some p →
      p.creator_id = i → valid_owned_post env post_id = Except.ok p) ∧
    (∀ i u, env.jwtPayloadId = some i → env.userById i = some u →
      perm ∉ u.permissions → raisesStatus (require_permission perm env) 403) ∧
    (∀ i u, env.jwtPayloadId = some i → env.userById i = some u →
      perm ∈ u.permissions → require_permission perm env = Except.ok u) := by
  refine ⟨?_, ?_, ?_, ?_, ?_, ?_, ?_, ?_, ?_, ?_⟩
  · intro hj
    exact ⟨⟨401, "Invalid credentials"⟩, by rw [parse_jwt_data, hj], rfl⟩
  · intro i hj
    rw [parse_jwt_data, hj]
  · intro i hj hu
    refine ⟨⟨401, "User not found"⟩, ?_, rfl⟩
    rw [get_current_user, parse_jwt_data, hj]
    simp [Except.bind, hu]
  · intro i u hj hu
    rw [get_current_user, parse_jwt_data, hj]
    simp [Except.bind, hu]
  · intro i u hj hu hact
    refine ⟨⟨403, "Inactive user"⟩, ?_, rfl⟩
    rw [get_active_user, get_current_user, parse_jwt_data, hj]
    simp [Except.bind, hu, hact]
  · intro i u hj hu hact
    rw [get_active_user, get_current_user, parse_jwt_data, hj]
    simp [Except.bind, hu, hact]
  · intro i p hj hp hown
    refine ⟨⟨403, "User does not own this post"⟩, ?_, rfl⟩
    rw [valid_owned_post, valid_post_id, hp, parse_jwt_data, hj]
    simp [Except.bind, hown]
  · intro i p hj hp hown
    rw [valid_owned_post, valid_post_id, hp, parse_jwt_data, hj]
    simp [Except.bind, hown]
  · intro i u hj hu hperm
    refine ⟨⟨403, "Missing required permission: " ++ perm.value⟩, ?_, rfl⟩
    rw [require_permission, get_current_user, parse_jwt_data, hj]
    simp [Except.bind, hu, hperm]
  · intro i u hj hu hperm
    rw [require_permission, get_current_user, parse_jwt_data, hj]
    simp [Except.bind, hu, hperm]

/-- Characterization of op_create_table on a schema without the table. -/
theorem op_create_table_spec (s : Schema) (name : String) (cols : List ColumnDef)
    (h : s name = none) :
    op_create_table name cols s =
      Except.ok (fun n => if n = name then some ⟨cols, []⟩ else s n) := by
  unfold op_create_table
  rw [h]

/-- Characterization of op_create_index when the table exists and the
index does not. -/
theorem op_create_index_spec (s : Schema) (tname iname : String)
    (cols : List String) (uniq : Bool) (td : TableDef) (h : s tname = some td)
    (hno : td.indexes.any (fun i => i.name = iname) = false) :
    op_create_index iname tname cols uniq s =
      Except.ok (fun n =>
        if n = tname then some ⟨td.columns, td.indexes ++ [⟨iname, cols, uniq⟩]⟩
        else s n) := by
  unfold op_create_index
  rw [h]
  simp [hno]

/-- Characterization of op_drop_index when the table and the index exist. -/
theorem op_drop_index_spec (s : Schema) (tname iname : String) (td : TableDef)
    (h : s tname = some td)
    (hyes : td.indexes.any (fun i => i.name = iname) = true) :
    op_drop_index iname tname s =
      Except.ok (fun n =>
        if n = tname then some ⟨td.columns, td.indexes.filter (fun i => i.name ≠ iname)⟩
        else s n) := by
  unfold op_drop_index
  rw [h]
  simp [hyes]

/-- Characterization of op_drop_table when the table exists. -/
theorem op_drop_table_spec (s : Schema) (name : String) (td : TableDef)
    (h : s name = some td) :
    op_drop_table name s = Except.ok (fun n => if n = name then none else s n) := by
  unfold op_drop_table
  rw [h]

/-- Schema after the create_table step of the initial migration. -/
def schemaStep1 (s : Schema) : Schema :=
  fun n => if n = "user" then some ⟨userColumns, []⟩ else s n

/-- Schema after additionally creating the email index. -/
def schemaStep2 (s : Schema) : Schema :=
  fun n =>
    if n = "user" then some ⟨userColumns, [⟨"user_email_idx", ["email"], true⟩]⟩
    else s n

/-- Schema after the full upgrade of the initial migration. -/
def schemaStep3 (s : Schema) : Schema :=
  fun n =>
    if n = "user" then
      some ⟨userColumns,
        [⟨"user_email_idx", ["email"], true⟩, ⟨"user_username_idx", ["username"], true⟩]⟩
    else s n

/-- C6: on any schema without a user table, the initial migration's
upgrade succeeds and its downgrade restores exactly the starting schema:
the pair is a round trip. -/
theorem C6_migration_initial_round_trip (s : Schema) (h : s "user" = none) :
    ∃ s1, migration_initial_upgrade s = Except.ok s1 ∧
      migration_initial_downgrade s1 = Except.ok s := by
  have h1 : schemaStep1 s "user" = some ⟨userColumns, []⟩ := by simp [schemaStep1]
  have h2 : schemaStep2 s "user" =
      some ⟨userColumns, [⟨"user_email_idx", ["email"], true⟩]⟩ := by
    simp [schemaStep2]
  have h3 : schemaStep3 s "user" =
      some ⟨userColumns,
        [⟨"user_email_idx", ["email"], true⟩,
         ⟨"user_username_idx", ["username"], true⟩]⟩ := by
    simp [schemaStep3]
  have e1 : op_create_table "user" userColumns s = Except.ok (schemaStep1 s) :=
    op_create_table_spec s "user" userColumns h
  have e2 : op_create_index "user_email_idx" "user" ["email"] true (schemaStep1 s) =
      Except.ok (fun n =>
        if n = "user" then some ⟨userColumns, [⟨"user_email_idx", ["email"], true⟩]⟩
        else schemaStep1 s n) :=
    op_create_index_spec (schemaStep1 s) "user" "user_email_idx" ["email"] true
      ⟨userColumns, []⟩ h1 (by decide)
  have f2 : (fun n =>
      if n = "user" then some (⟨userColumns, [⟨"user_email_idx", ["email"], true⟩]⟩ : TableDef)
      else schemaStep1 s n) = schemaStep2 s := by
    funext n
    by_cases hn : n = "user" <;> simp [schemaStep1, schemaStep2, hn]
  have e3 : op_create_index "user_username_idx" "user" ["username"] true (schemaStep2 s) =
      Except.ok (fun n =>
        if n = "user" then
          some ⟨userColumns,
            [⟨"user_email_idx", ["email"], true⟩,
             ⟨"user_username_idx", ["username"], true⟩]⟩
        else schemaStep2 s n) :=
    op_create_index_spec (schemaStep2 s) "user" "user_username_idx" ["username"] true
      ⟨userColumns, [⟨"user_email_idx", ["email"], true⟩]⟩ h2 (by decide)
  have f3 : (fun n =>
      if n = "user" then
        some (⟨userColumns,
          [⟨"user_email_idx", ["email"], true⟩,
           ⟨"user_username_idx", ["username"], true⟩]⟩ : TableDef)
      else schemaStep2 s n) = schemaStep3 s := by
    funext n
    by_cases hn : n = "user" <;> simp [schemaStep2, schemaStep3, hn]
  have eUp : migration_initial_upgrade s = Except.ok (schemaStep3 s) := by
    rw [migration_initial_upgrade, e1]
    simp only [Except.bind]
    rw [e2, f2]
    simp only [Except.bind]
    rw [e3, f3]
  have d1 : op_drop_index "user_username_idx" "user" (schemaStep3 s) =
      Except.ok (fun n =>
        if n = "user" then some ⟨userColumns, [⟨"user_email_idx", ["email"], true⟩]⟩
        else schemaStep3 s n) := by
    have hstep := op_drop_index_spec (schemaStep3 s) "user" "user_username_idx"
      ⟨userColumns,
        [⟨"user_email_idx", ["email"], true⟩,
         ⟨"user_username_idx", ["username"], true⟩]⟩ h3 (by decide)
    rw [hstep]
    congr 1
  have fd1 : (fun n =>
      if n = "user" then some (⟨userColumns, [⟨"user_email_idx", ["email"], true⟩]⟩ : TableDef)
      else schemaStep3 s n) = schemaStep2 s := by
    funext n
    by_cases hn : n = "user" <;> simp [schemaStep2, schemaStep3, hn]
  have d2 : op_drop_index "user_email_idx" "user" (schemaStep2 s) =
      Except.ok (fun n =>
        if n = "user" then some ⟨userColumns, []⟩
        else schemaStep2 s n) := by
    have hstep := op_drop_index_spec (schemaStep2 s) "user" "user_email_idx"
      ⟨userColumns, [⟨"user_email_idx", ["email"], true⟩]⟩ h2 (by decide)
    rw [hstep]
    congr 1
  have fd2 : (fun n =>
      if n = "user" then some (⟨userColumns, []⟩ : TableDef)
      else schemaStep2 s n) = schemaStep1 s := by
    funext n
    by_cases hn : n = "user" <;> simp [schemaStep1, schemaStep2, hn]
  have d3 : op_drop_table "user" (schemaStep1 s) =
      Except.ok (fun n => if n = "user" then none else schemaStep1 s n) :=
    op_drop_table_spec (schemaStep1 s) "user" ⟨userColumns, []⟩ h1
  have fd3 : (fun n => if n = "user" then none else schemaStep1 s n) = s := by
    funext n
    by_cases hn : n = "user"
    · simp [hn, h]
    · simp [schemaStep1, hn]
  have eDown : migration_initial_downgrade (schemaStep3 s) = Except.ok s := by
    rw [migration_initial_downgrade, d1, fd1]
    simp only [Except.bind]
    rw [d2, fd2]
    simp only [Except.bind]
    rw [d3, fd3]
  exact ⟨schemaStep3 s, eUp, eDown⟩

/-- Witness for C6: the round trip on the empty schema. -/
theorem C6_migration_initial_round_trip_witness :
    ∃ s1, migration_initial_upgrade (fun _ => none) = Except.ok s1 ∧
      migration_initial_downgrade s1 = Except.ok (fun _ => none) :=
  C6_migration_initial_round_trip (fun _ => none) rfl

/-- Counterexample for C7 as stated: in a request to get_user_post whose
post id does not exist, valid_post_id raises before parse_jwt_data is
ever reached, so the shared sub-dependency is evaluated zero times, not
exactly once. -/
theorem C7_parse_jwt_once_counterexample :
    (get_user_post_cached ⟨some 1, fun _ => none, fun _ => none⟩ 0).2 = 0 ∧
    (0 : Nat) ≠ 1 :=
  ⟨rfl, by decide⟩

/-- C7 (amended): in every request to get_user_post the memoized
resolution evaluates parse_jwt_data at most once — exactly once whenever
resolution reaches it, in particular whenever the post exists — and it
produces the same outcome (post and user values, or error) as the naive
resolution that evaluates parse_jwt_data separately for each consumer. -/
theorem C7_parse_jwt_memoized (env : AuthEnv) (post_id : Nat) :
    (get_user_post_cached env post_id).2 ≤ 1 ∧
    ((∃ p, env.postById post_id = some p) →
      (get_user_post_cached env post_id).2 = 1) ∧
    (get_user_post_cached env post_id).1 = (get_user_post_naive env post_id).1 := by
  cases hp : env.postById post_id with
  | none =>
    refine ⟨?_, ?_, ?_⟩
    · simp [get_user_post_cached, valid_post_id, hp]
    · rintro ⟨p, hpp⟩
      exact absurd hpp (by simp)
    · simp [get_user_post_cached, get_user_post_naive, valid_post_id, hp]
  | some p =>
    cases hj : env.jwtPayloadId with
    | none =>
      refine ⟨?_, fun _ => ?_, ?_⟩ <;>
        simp [get_user_post_cached, get_user_post_naive, valid_post_id, hp,
          resolve_jwt_cached, parse_jwt_data, hj]
    | some i =>
      by_cases hown : p.creator_id ≠ i
      · refine ⟨?_, fun _ => ?_, ?_⟩ <;>
          simp [get_user_post_cached, get_user_post_naive, valid_post_id, hp,
            resolve_jwt_cached, parse_jwt_data, hj, valid_owned_post_body, hown]
      · cases hu : env.userById i with
        | none =>
          refine ⟨?_, fun _ => ?_, ?_⟩ <;>
            simp [get_user_post_cached, get_user_post_naive, valid_post_id, hp,
              resolve_jwt_cached, parse_jwt_data, hj, valid_owned_post_body, hown,
              valid_active_creator_body, hu]
        | some u =>
          cases hact : u.is_active <;> cases hcr : u.is_creator <;>
            refine ⟨?_, fun _ => ?_, ?_⟩ <;>
            simp [get_user_post_cached, get_user_post_naive, valid_post_id, hp,
              resolve_jwt_cached, parse_jwt_data, hj, valid_owned_post_body, hown,
              valid_active_creator_body, hu, hact, hcr]

/-- Witness for C7: with an existing post owned by an active creator,
the memoized resolution evaluates parse_jwt_data exactly once. -/
theorem C7_parse_jwt_memoized_witness :
    (get_user_post_cached
      ⟨some 5, fun _ => some ⟨5, true, true, []⟩, fun _ => some ⟨0, 5⟩⟩ 0).2 = 1 :=
  (C7_parse_jwt_memoized
    ⟨some 5, fun _ => some ⟨5, true, true, []⟩, fun _ => some ⟨0, 5⟩⟩ 0).2.1
    ⟨⟨0, 5⟩, rfl⟩

/-- Length is preserved by update_post. -/
theorem update_post_length (rows : List PostModelRow) (post_id : Nat)
    (u : PostUpdate) (now : Nat) :
    (update_post rows post_id u now).length = rows.length := by
  simp [update_post]

/-- Counterexample for C8 as stated: an update that explicitly sets no
field at all still changes the updated_at column of the matching row,
because the column's onupdate=func.now() default fires on every UPDATE;
so not every column outside the explicitly-set fields keeps its value. -/
theorem C8_update_post_frame_counterexample :
    update_post [⟨1, "a", "b", false, 9, some 0, none⟩] 1 ⟨none, none, none⟩ 5 =
      [⟨1, "a", "b", false, 9, some 0, some 5⟩] ∧
    (none : Option Nat) ≠ some 5 := by
  decide

/-- C8 (amended): update_post modifies only the explicitly-set fields of
the given PostUpdate plus the updated_at column, which the post table's
onupdate=func.now() default sets on every update of a matching row:
every row with a different id is untouched, and on the matching row the
id, creator_id, created_at and every unset column among title, content
and published keep their previous values, set columns take the given
values, and updated_at becomes the current time. -/
theorem C8_update_post_modified_columns (rows : List PostModelRow) (post_id : Nat)
    (u : PostUpdate) (now : Nat) (i : Nat) (h1 : i < rows.length)
    (h2 : i < (update_post rows post_id u now).length) :
    (rows[i].id ≠ post_id → (update_post rows post_id u now)[i] = rows[i]) ∧
    (rows[i].id = post_id →
      (update_post rows post_id u now)[i].id = rows[i].id ∧
      (update_post rows post_id u now)[i].creator_id = rows[i].creator_id ∧
      (update_post rows post_id u now)[i].created_at = rows[i].created_at ∧
      (update_post rows post_id u now)[i].updated_at = some now ∧
      (u.title = none → (update_post rows post_id u now)[i].title = rows[i].title) ∧
      (u.content = none →
        (update_post rows post_id u now)[i].content = rows[i].content) ∧
      (u.published = none →
        (update_post rows post_id u now)[i].published = rows[i].published) ∧
      (∀ t, u.title = some t → (update_post rows post_id u now)[i].title = t) ∧
      (∀ c, u.content = some c → (update_post rows post_id u now)[i].content = c) ∧
      (∀ b, u.published = some b →
        (update_post rows post_id u now)[i].published = b)) := by
  constructor
  · intro hne
    simp [update_post, applyPostUpdate, hne]
  · intro heq
    refine ⟨?_, ?_, ?_, ?_, ?_, ?_, ?_, ?_, ?_, ?_⟩
    · simp [update_post, applyPostUpdate, heq]
    · simp [update_post, applyPostUpdate, heq]
    · simp [update_post, applyPostUpdate, heq]
    · simp [update_post, applyPostUpdate, heq]
    · intro hset
      simp [update_post, applyPostUpdate, heq, hset]
    · intro hset
      simp [update_post, applyPostUpdate, heq, hset]
    · intro hset
      simp [update_post, applyPostUpdate, heq, hset]
    · intro t hset
      simp [update_post, applyPostUpdate, heq, hset]
    · intro c hset
      simp [update_post, applyPostUpdate, heq, hset]
    · intro b hset
      simp [update_post, applyPostUpdate, heq, hset]

/-- Result of find? on an appended list whose prefix never matches. -/
theorem find?_append_of_forall_neg {α : Type} (p : α → Bool) (l1 l2 : List α)
    (h : ∀ x ∈ l1, p x = false) :
    (l1 ++ l2).find? p = l2.find? p := by
  induction l1 with
  | nil => simp
  | cons a t ih =>
    rw [List.cons_append, List.find?_cons_of_neg]
    · exact ih (fun x hx => h x (List.mem_cons_of_mem a hx))
    · simp [h a (List.mem_cons_self a t)]

/-- Tag insertion appends one tag row per tag name when no statement in
its index range fails. -/
theorem insertTags_ok (fails : Nat → Bool) (pid : Nat) (tagNames : List String) :
    ∀ idx db, (∀ j, idx ≤ j → j < idx + tagNames.length → fails j = false) →
    insertTags fails pid tagNames idx db =
      Except.ok { db with tags := db.tags ++ tagNames.map (fun t => ⟨pid, t⟩) } := by
  induction tagNames with
  | nil =>
    intro idx db h
    simp [insertTags]
  | cons t rest ih =>
    intro idx db h
    rw [insertTags]
    have hlen : (t :: rest).length = rest.length + 1 := rfl
    have h0 : fails idx = false := h idx (Nat.le_refl idx) (by omega)
    rw [h0]
    simp only [Bool.false_eq_true, if_false]
    rw [ih (idx + 1) { db with tags := db.tags ++ [⟨pid, t⟩] }
      (fun j hj1 hj2 => h j (by omega) (by omega))]
    simp [List.append_assoc]

/-- C2: create_post_with_tags is atomic: if any statement inside the
transaction block fails, the database is unchanged — in particular the
post inserted earlier in the call is not present — and if no statement
fails, the post and all the tags are inserted and the created post is
returned. The database invariant that existing post ids differ from the
next auto-generated id is assumed. -/
theorem C2_create_post_with_tags_atomic (fails : Nat → Bool) (pd : PostCreate)
    (tagNames : List String) (cid : Nat) (db : DB)
    (hfresh : ∀ r ∈ db.posts, r.id ≠ db.nextId) :
    (∀ e, (create_post_with_tags fails pd tagNames cid db).1 = Except.error e →
       (create_post_with_tags fails pd tagNames cid db).2 = db ∧
       ∀ r ∈ (create_post_with_tags fails pd tagNames cid db).2.posts,
         r.id ≠ db.nextId) ∧
    ((∀ j, j ≤ tagNames.length + 1 → fails j = false) →
       (create_post_with_tags fails pd tagNames cid db).1 =
         Except.ok ⟨db.nextId, pd.title, pd.content, pd.published, cid⟩ ∧
       (create_post_with_tags fails pd tagNames cid db).2.posts =
         db.posts ++ [⟨db.nextId, pd.title, pd.content, pd.published, cid⟩] ∧
       (create_post_with_tags fails pd tagNames cid db).2.tags =
         db.tags ++ tagNames.map (fun t => ⟨db.nextId, t⟩)) := by
  constructor
  · intro e he
    unfold create_post_with_tags at he ⊢
    cases htb : transactionBody fails pd tagNames cid db with
    | error e2 =>
      exact ⟨rfl, hfresh⟩
    | ok pr =>
      rw [htb] at he
      simp at he
  · intro hok
    have h0 : fails 0 = false := hok 0 (by omega)
    have h1 : fails (tagNames.length + 1) = false := hok _ (Nat.le_refl _)
    have hT : transactionBody fails pd tagNames cid db =
        Except.ok (⟨db.nextId, pd.title, pd.content, pd.published, cid⟩,
          { posts := db.posts ++ [⟨db.nextId, pd.title, pd.content, pd.published, cid⟩],
            tags := db.tags ++ tagNames.map (fun t => ⟨db.nextId, t⟩),
            nextId := db.nextId + 1 }) := by
      rw [transactionBody, h0]
      simp only [Bool.false_eq_true, if_false]
      rw [insertTags_ok fails db.nextId tagNames 1
        { posts := db.posts ++ [⟨db.nextId, pd.title, pd.content, pd.published, cid⟩],
          tags := db.tags, nextId := db.nextId + 1 }
        (fun j hj1 hj2 => hok j (by omega))]
      simp only [h1, Bool.false_eq_true, if_false]
      have hfind : (db.posts ++
            [(⟨db.nextId, pd.title, pd.content, pd.published, cid⟩ : PostRow)]).find?
          (fun r => r.id = db.nextId) =
          some ⟨db.nextId, pd.title, pd.content, pd.published, cid⟩ := by
        rw [find?_append_of_forall_neg _ _ _
          (fun x hx => decide_eq_false (hfresh x hx))]
        simp
      rw [hfind]
    unfold create_post_with_tags
    rw [hT]
    exact ⟨rfl, rfl, rfl⟩

/-- Witness for C2: with no failing statement, inserting a post with two
tags into the empty database returns the created post and stores both
tag rows. -/
theorem C2_create_post_with_tags_atomic_witness :
    (create_post_with_tags (fun _ => false) ⟨"t", "c", true⟩ ["a", "b"] 3
      ⟨[], [], 0⟩).1 = Except.ok ⟨0, "t", "c", true, 3⟩ ∧
    (create_post_with_tags (fun _ => false) ⟨"t", "c", true⟩ ["a", "b"] 3
      ⟨[], [], 0⟩).2.tags = [⟨0, "a"⟩, ⟨0, "b"⟩] := by
  have h := (C2_create_post_with_tags_atomic (fun _ => false) ⟨"t", "c", true⟩
    ["a", "b"] 3 ⟨[], [], 0⟩ (by simp)).2 (fun j _ => rfl)
  exact ⟨h.1, h.2.2.trans (by decide)⟩

/-- Witness for C8: a one-field update of the matching row keeps the
content column, stamps updated_at, and leaves a row with another id
untouched. -/
theorem C8_update_post_modified_columns_witness :
    (update_post [⟨1, "a", "b", false, 9, some 0, none⟩,
        ⟨2, "c", "d", true, 8, some 0, none⟩] 1
        ⟨some "new", none, none⟩ 7)[0].content = "b" ∧
    (update_post [⟨1, "a", "b", false, 9, some 0, none⟩,
        ⟨2, "c", "d", true, 8, some 0, none⟩] 1
        ⟨some "new", none, none⟩ 7)[0].updated_at = some 7 ∧
    (update_post [⟨1, "a", "b", false, 9, some 0, none⟩,
        ⟨2, "c", "d", true, 8, some 0, none⟩] 1
        ⟨some "new", none, none⟩ 7)[1] = ⟨2, "c", "d", true, 8, some 0, none⟩ := by
  refine ⟨?_, ?_, ?_⟩
  · exact ((C8_update_post_modified_columns
      [⟨1, "a", "b", false, 9, some 0, none⟩, ⟨2, "c", "d", true, 8, some 0, none⟩] 1
      ⟨some "new", none, none⟩ 7 0 (by decide) (by decide)).2 rfl).2.2.2.2.2.1 rfl
  · exact ((C8_update_post_modified_columns
      [⟨1, "a", "b", false, 9, some 0, none⟩, ⟨2, "c", "d", true, 8, some 0, none⟩] 1
      ⟨some "new", none, none⟩ 7 0 (by decide) (by decide)).2 rfl).2.2.2.1
  · exact (C8_update_post_modified_columns
      [⟨1, "a", "b", false, 9, some 0, none⟩, ⟨2, "c", "d", true, 8, some 0, none⟩] 1
      ⟨some "new", none, none⟩ 7 1 (by decide) (by decide)).1 (by decide)

/-- Witness for C1: a request with a failing JWT decode raises 401, and
an active user with the read permission is returned by get_active_user. -/
theorem C1_auth_chain_statuses_witness :
    raisesStatus (parse_jwt_data ⟨none, fun _ => none, fun _ => none⟩) 401 ∧
    get_active_user ⟨some 1, fun _ => some ⟨1, true, true, [Permission.READ_POSTS]⟩,
        fun _ => none⟩ =
      Except.ok ⟨1, true, true, [Permission.READ_POSTS]⟩ :=
  ⟨(C1_auth_chain_statuses ⟨none, fun _ => none, fun _ => none⟩ 0 Permission.READ_POSTS).1 rfl,
   (C1_auth_chain_statuses
      ⟨some 1, fun _ => some ⟨1, true, true, [Permission.READ_POSTS]⟩, fun _ => none⟩
      0 Permission.READ_POSTS).2.2.2.2.2.1 1
      ⟨1, true, true, [Permission.READ_POSTS]⟩ rfl rfl rfl⟩
